import Mathlib

/-!
Shallow embedding of the `rodlayout` package: the symbolic handle registry
(`rodlayout/handle.py`), and the shape-proxy / alignment layer
(`rodlayout/proxy.py`).  Remote (Virtuoso) interactions are modelled by an
event trace together with an environment supplying the remote system's
responses; Python exceptions are modelled by `Except`.
-/

set_option autoImplicit false

namespace Rodlayout

/-- Points are integer pairs; the geometry layer is used purely as values. -/
abbrev Pt := Int × Int

/-- A bounding box is a pair (min-corner, max-corner) of points. -/
abbrev BBox := Pt × Pt

/-! ## handle.py — the symbolic handle registry -/

/-- Source `_handle_part_y`: pairs of (python vertical name, skill vertical name). -/
def handle_part_y : List (String × String) :=
  [("top", "upper"), ("upper", "upper"), ("bottom", "lower"), ("lower", "lower"),
   ("center", "center")]

/-- Source `_handle_part_x`: the horizontal parts. -/
def handle_part_x : List String := ["left", "center", "right"]

/--
Source `python_skill_handle`, built exactly as in `handle.py`: a dict
comprehension over the vertical parts (outer) crossed with the horizontal
parts (inner), mapping `f"{py}_{x}"` to `f"{sy}{x.title()}"`; then one entry
per horizontal-only name `x ↦ "center" + x.title()`; then one entry per
vertical-only name `py ↦ sy + "Center"`.  Python's `str.title()` on these
single lowercase words equals `String.capitalize`.  The list keeps the
insertion order of the Python dict; later bindings of the same key override
earlier ones (dict assignment semantics), which `resolve` implements by
looking the key up in the reversed list.
-/
def python_skill_handle : List (String × String) :=
  (handle_part_y.flatMap fun p =>
    handle_part_x.map fun x => (p.1 ++ "_" ++ x, p.2 ++ x.capitalize))
  ++ (handle_part_x.map fun x => (x, "center" ++ x.capitalize))
  ++ (handle_part_y.map fun p => (p.1, p.2 ++ "Center"))

/-- Dict lookup `python_skill_handle[name]`: the last binding of a key wins. -/
def resolve (name : String) : Option String :=
  python_skill_handle.reverse.lookup name

/-- The eight canonical anchors listed by the spec (skill spelling). -/
def eightAnchors : List String :=
  ["upperLeft", "upperCenter", "upperRight", "centerRight",
   "lowerRight", "lowerCenter", "lowerLeft", "centerLeft"]

/-- The nine values the registry actually produces: the eight canonical
anchors plus the center-center anchor. -/
def nineAnchors : List String := "centerCenter" :: eightAnchors

/-! ## Exceptions and remote events -/

/-- Python exceptions raised by the embedded code. -/
inductive PyErr where
  | indexError
  | assertionError (msg : String)
  | keyError (key : String)
  | valueError (msg : String)
  | notImplementedError (msg : String)
  | remoteError
deriving DecidableEq, Repr

/-- One remote (skillbridge) interaction.  Remote object handles are plain
numeric ids; a rod object is identified with its underlying db id
(`rod_shape.db_id` in the source). -/
inductive Event where
  | readCellView (id : Nat)
  | readShapeBBox (id : Nat)
  | readPrBoundary (id : Nat)
  | createFigGroup (cv gid : Nat)
  | addFigToFigGroup (gid fid : Nat)
  | readGroupBBox (gid : Nat)
  | deleteObject (id : Nat)
  | createRect (cv rid : Nat) (box : BBox)
  | rodAlign (alignObj : Nat) (alignHandle : String) (refObj : Nat) (refHandle : String)
      (maintain : Bool) (xSep ySep : Int)
deriving DecidableEq, Repr

/-- Responses of the remote system: the bounding box returned when a figure
group's `b_box` is read (`none` models the read raising), and whether the
native `rod.align` call succeeds. -/
structure RemoteEnv where
  groupBox : Nat → Option BBox
  alignOk : Bool

/-! ## A trace monad

A computation consumes a fresh-id counter and returns the list of remote
events it performed, the new counter, and either a value or the Python
exception it raised. -/

def M (α : Type) : Type := Nat → List Event × Nat × Except PyErr α

instance : Monad M where
  pure a := fun n => ([], n, .ok a)
  bind m f := fun n =>
    match m n with
    | (t, n', .ok a) =>
      match f a n' with
      | (t', n'', r) => (t ++ t', n'', r)
    | (t, n', .error e) => (t, n', .error e)

/-- Raise a Python exception. -/
def throwPy {α : Type} (e : PyErr) : M α := fun n => ([], n, .error e)

/-- Record one remote interaction. -/
def emit (e : Event) : M Unit := fun n => ([e], n, .ok ())

/-- Allocate a fresh remote object id. -/
def freshId : M Nat := fun n => ([], n + 1, .ok n)

/-- Python `try: body finally: fin` — `fin` runs whether `body` returned or
raised; an exception raised by `fin` replaces the in-flight one. -/
def tryFinally {α : Type} (body : M α) (fin : M Unit) : M α := fun n =>
  match body n with
  | (t, n', .ok a) =>
    match fin n' with
    | (t', n'', .ok _) => (t ++ t', n'', .ok a)
    | (t', n'', .error e) => (t ++ t', n'', .error e)
  | (t, n', .error e) =>
    match fin n' with
    | (t', n'', .ok _) => (t ++ t', n'', .error e)
    | (t', n'', .error e') => (t ++ t', n'', .error e')

/-! ## Remote primitives used by proxy.py -/

/-- `current_workspace.db.create_fig_group(cv, None, False, (0, 0), identity)`:
creates an empty figure group and returns its id. -/
def db_create_fig_group (cv : Nat) : M Nat := do
  let gid ← freshId
  emit (.createFigGroup cv gid)
  pure gid

/-- `current_workspace.db.add_fig_to_fig_group(gid, fid)`. -/
def db_add_fig_to_fig_group (gid fid : Nat) : M Unit :=
  emit (.addFigToFigGroup gid fid)

/-- `current_workspace.db.delete_object(id)`. -/
def db_delete_object (id : Nat) : M Unit :=
  emit (.deleteObject id)

/-- Reading `group_id.b_box` on a figure group: the environment decides the
answer; `none` models the remote read raising. -/
def group_b_box (env : RemoteEnv) (gid : Nat) : M BBox := do
  emit (.readGroupBBox gid)
  match env.groupBox gid with
  | some b => pure b
  | none => throwPy .remoteError

/-- `current_workspace.rod.create_rect(layer="M1", cv_id=cv, b_box=box)`:
creates the marker rectangle and returns its (db) id. -/
def rod_create_rect (cv : Nat) (box : BBox) : M Nat := do
  let rid ← freshId
  emit (.createRect cv rid box)
  pure rid

/-- `current_workspace.rod.align(...)`: the native alignment primitive. -/
def rod_align (env : RemoteEnv) (alignObj : Nat) (alignHandle : String) (refObj : Nat)
    (refHandle : String) (maintain : Bool) (sep : Int × Int) : M Unit := do
  emit (.rodAlign alignObj alignHandle refObj refHandle maintain sep.1 sep.2)
  if env.alignOk then pure () else throwPy .remoteError

/-- True on events that are not an invocation of the native alignment
primitive. -/
def notAlignEvent : Event → Bool
  | .rodAlign _ _ _ _ _ _ _ => false
  | _ => true

/-- True unless the event invokes the native alignment primitive with
`maintain=true`. -/
def maintainFalseEvent : Event → Bool
  | .rodAlign _ _ _ _ m _ _ => !m
  | _ => true

/-- True on cell-view reads only: the only events `cell_view` performs. -/
def cellViewReadEvent : Event → Bool
  | .readCellView _ => true
  | _ => false

/-! ## proxy.py — the shape proxy hierarchy

A `Figure` is one of the four proxy variants.  The single-object variants
carry the remote state this layer would read back from Virtuoso: the db id,
the rod id where present, the owning cell view and the drawn bounding box;
an `Instance` additionally carries its master's bounding box and declared
placement boundary (both cell-view relative). -/

inductive Figure where
  | dbShape (db : Nat) (cv : Nat) (box : BBox)
  | rodShape (db rod : Nat) (cv : Nat) (box : BBox)
  | inst (db rod : Nat) (cv : Nat) (box : BBox) (masterBox : BBox) (masterPr : BBox)
  | collection (elements : List Figure)

/-- Whether the figure has a rod representation (`isinstance(f, RodShape)`;
`Instance` extends `RodShape`). -/
def isRodFigure : Figure → Bool
  | .rodShape _ _ _ _ => true
  | .inst _ _ _ _ _ _ => true
  | _ => false

/-- The rod handle of a rod-capable figure (`self._shape.rod`); only ever
used under an `isRodFigure` guard, mirroring the attribute access that would
fail on the other variants. -/
def rodIdOf : Figure → Nat
  | .rodShape _ rod _ _ => rod
  | .inst _ rod _ _ _ _ => rod
  | _ => 0

mutual

/-- `Figure.get_db_ids`: `DbShape`, `RodShape` and `Instance` return the
one-element list of their db id; `FigureCollection.get_db_ids` yields from
each element in order. -/
def get_db_ids : Figure → List Nat
  | .dbShape db _ _ => [db]
  | .rodShape db _ _ _ => [db]
  | .inst db _ _ _ _ _ => [db]
  | .collection es => get_db_ids_list es

/-- The flattening of `get_db_ids` over a collection's element list. -/
def get_db_ids_list : List Figure → List Nat
  | [] => []
  | e :: es => get_db_ids e ++ get_db_ids_list es

end

mutual

/-- `Figure.cell_view`: single-object variants read `self.db.cell_view`;
a collection builds the list of its elements' cell views, then indexes it
(an `IndexError` on the empty collection) and asserts all entries equal the
first. -/
def fig_cell_view : Figure → M Nat
  | .dbShape db cv _ => do
    emit (.readCellView db)
    pure cv
  | .rodShape db _ cv _ => do
    emit (.readCellView db)
    pure cv
  | .inst db _ cv _ _ _ => do
    emit (.readCellView db)
    pure cv
  | .collection es => do
    let cvs ← fig_cell_view_list es
    match cvs with
    | [] => throwPy .indexError
    | c0 :: _ =>
      if cvs.count c0 = cvs.length then pure c0
      else throwPy (.assertionError
        "All elements of the figure collection must be present in the same cell view.")

/-- The list comprehension `[e.cell_view for e in self.elements]`. -/
def fig_cell_view_list : List Figure → M (List Nat)
  | [] => pure []
  | e :: es => do
    let c ← fig_cell_view e
    let cs ← fig_cell_view_list es
    pure (c :: cs)

end

/-- The loop `for inst_id in ids: db.add_fig_to_fig_group(group_id, inst_id)`. -/
def add_figs_to_group (gid : Nat) : List Nat → M Unit
  | [] => pure ()
  | fid :: fids => do
    db_add_fig_to_fig_group gid fid
    add_figs_to_group gid fids

/-- `Figure.skill_b_box`: single-object variants read `self.db.b_box`; a
`FigureCollection` creates a temporary figure group in its cell view, adds
every contained db id, reads the group's `b_box`, deletes the group and
returns the box — with no `try`/`finally` around the read, exactly as in the
source. -/
def skill_b_box (env : RemoteEnv) : Figure → M BBox
  | .dbShape db _ box => do
    emit (.readShapeBBox db)
    pure box
  | .rodShape db _ _ box => do
    emit (.readShapeBBox db)
    pure box
  | .inst db _ _ box _ _ => do
    emit (.readShapeBBox db)
    pure box
  | .collection es => do
    let cv ← fig_cell_view (.collection es)
    let gid ← db_create_fig_group cv
    add_figs_to_group gid (get_db_ids (.collection es))
    let b ← group_b_box env gid
    db_delete_object gid
    pure b

/-- Componentwise `map(operator.sub, p, q)` on points. -/
def ptSub (p q : Pt) : Pt := (p.1 - q.1, p.2 - q.2)

/-- Componentwise `map(operator.add, p, q)` on points. -/
def ptAdd (p q : Pt) : Pt := (p.1 + q.1, p.2 + q.2)

/-- `Instance.skill_pr_boundary`'s arithmetic: subtract the master's
bounding-box origin from each corner of the master's placement boundary,
then add the instance's bounding-box origin. -/
def inst_pr_box (instBox masterBox masterPr : BBox) : BBox :=
  let instRel : BBox := (ptSub masterPr.1 masterBox.1, ptSub masterPr.2 masterBox.1)
  (ptAdd instRel.1 instBox.1, ptAdd instRel.2 instBox.1)

/-- `Figure.skill_pr_boundary`: `DbShape`, `RodShape` and `FigureCollection`
raise `NotImplementedError`; `Instance` reads the master's placement
boundary and translates it into the instance's frame. -/
def skill_pr_boundary : Figure → M BBox
  | .dbShape _ _ _ => throwPy (.notImplementedError "Db Shape does not have a pr boundary.")
  | .rodShape _ _ _ _ => throwPy (.notImplementedError "Rod Shape has no pr boundary.")
  | .inst db _ _ box masterBox masterPr => do
    emit (.readPrBoundary db)
    pure (inst_pr_box box masterBox masterPr)
  | .collection _ =>
    throwPy (.notImplementedError "Figure collection does not have a pr boundary.")

/-! ## The ghost-shape fabricator -/

/-- The code of `ghost_shape` before the `yield`: compute the relevant box
(placement boundary when `pr` is set, else the drawn bounding box), create
the marker rectangle at that box, create a temporary figure group, add the
marker's db id and then every db id of the figure to it.  Returns
(marker id, group id). -/
def ghost_acquire (env : RemoteEnv) (cv : Nat) (figure : Figure) (pr : Bool) :
    M (Nat × Nat) := do
  let b_box ← if pr then skill_pr_boundary figure else skill_b_box env figure
  let rod_shape ← rod_create_rect cv b_box
  let group_id ← db_create_fig_group cv
  db_add_fig_to_fig_group group_id rod_shape
  add_figs_to_group group_id (get_db_ids figure)
  pure (rod_shape, group_id)

/-- The `ghost_shape` context manager: acquisition, then the caller's body on
the yielded marker under `try`/`finally`; the `finally` deletes the temporary
group first and the marker rectangle second.  As in Python's
`@contextmanager`, a failure during acquisition propagates without running
the `finally`. -/
def ghost_shape {α : Type} (env : RemoteEnv) (cv : Nat) (figure : Figure) (pr : Bool)
    (body : Nat → M α) : M α := do
  let ids ← ghost_acquire env cv figure pr
  tryFinally (body ids.1) (do
    db_delete_object ids.2
    db_delete_object ids.1)

/-! ## Alignment handles -/

/-- The Python class of a handle: `_AlignHandle` (plain) or its subclass
`_RodAlignHandle` (rod), which overrides `_do_align`. -/
inductive HandleKind where
  | plain
  | rod
deriving DecidableEq, Repr

/-- An alignment handle pairs a shape with a placement-boundary flag and an
anchor name (`_shape`, `_pr`, `_handle` in the source); `kind` records which
Python class the handle object has. -/
structure AlignHandle where
  shape : Figure
  pr : Bool
  handle : String
  kind : HandleKind

/-- `Figure.__getattr__` / `RodShape.__getattr__`: anchor access on a shape
builds a handle of the class matching the shape's variant (`_AlignHandle`
for plain figures, `_RodAlignHandle` for rod shapes), raising `KeyError` for
unknown names via the registry lookup. -/
def fig_getattr (f : Figure) (name : String) : Except PyErr AlignHandle :=
  match resolve name with
  | none => .error (.keyError name)
  | some h => .ok ⟨f, false, h, if isRodFigure f then .rod else .plain⟩

/-- `Figure.b_box` / `RodShape.b_box`: the bounding-box handle with unset
anchor, of the class matching the shape's variant. -/
def fig_b_box_handle (f : Figure) : AlignHandle :=
  ⟨f, false, "", if isRodFigure f then .rod else .plain⟩

/-- `Instance.pr_boundary`: a plain `_AlignHandle` with the placement-boundary
flag set and unset anchor. -/
def inst_pr_boundary_handle (f : Figure) : AlignHandle :=
  ⟨f, true, "", .plain⟩

/-- `_AlignHandle.__getattr__`: re-binds the anchor through the registry.  It
always constructs the base class `_AlignHandle`, so the result's kind is
`plain` even when `self` was a `_RodAlignHandle`. -/
def alignHandle_getattr (h : AlignHandle) (name : String) : Except PyErr AlignHandle :=
  match resolve name with
  | none => .error (.keyError name)
  | some a => .ok ⟨h.shape, h.pr, a, .plain⟩

/-- The alignment handles reachable through the source's construction paths:
anchor access on a figure, `b_box`, `Instance.pr_boundary`, and anchor
re-binding on an existing handle. -/
inductive Constructed : AlignHandle → Prop where
  | getattr (f : Figure) (name : String) (h : AlignHandle) :
      fig_getattr f name = .ok h → Constructed h
  | bbox (f : Figure) : Constructed (fig_b_box_handle f)
  | prBoundary (db rod cv : Nat) (box mb mp : BBox) :
      Constructed (inst_pr_boundary_handle (.inst db rod cv box mb mp))
  | rebind (h₀ : AlignHandle) (name : String) (h : AlignHandle) :
      Constructed h₀ → alignHandle_getattr h₀ name = .ok h → Constructed h

/-! ## The align algorithm -/

/-- `_AlignHandle._do_align`: rejects `maintain`, then reads the aligned
shape's cell view and opens one ghost-shape scope per side (reference scope
nested inside the aligned scope), invoking the native primitive on the two
markers with `maintain=False`; returns the two-element collection. -/
def plain_do_align (env : RemoteEnv) (self ref : AlignHandle) (align_handle : String)
    (sep : Int × Int) (maintain : Bool) : M Figure := do
  if maintain then
    throwPy (.valueError "Cannot maintain alignment when figure has no rod representation.")
  else do
    let cell_view ← fig_cell_view self.shape
    ghost_shape env cell_view self.shape self.pr fun align_rod =>
      ghost_shape env cell_view ref.shape ref.pr fun ref_rod =>
        rod_align env align_rod align_handle ref_rod ref.handle false sep
    pure (.collection [self.shape, ref.shape])

/-- `_RodAlignHandle._do_align`: rejects `maintain` when the reference has no
rod representation or either side uses the placement-boundary flag; falls
back to `super()._do_align` unless both shapes are rod shapes and neither
side uses the flag; otherwise invokes the native primitive directly on the
two rod handles with the caller's `maintain`. -/
def rod_do_align (env : RemoteEnv) (self ref : AlignHandle) (align_handle : String)
    (sep : Int × Int) (maintain : Bool) : M Figure := do
  if maintain && !isRodFigure ref.shape then
    throwPy (.valueError "Cannot maintain alignment when ref objects has no rod representation.")
  else if maintain && (self.pr || ref.pr) then
    throwPy (.valueError "Cannot maintain alignment for pr boundary.")
  else if !isRodFigure ref.shape || !isRodFigure self.shape || self.pr || ref.pr then
    plain_do_align env self ref align_handle sep maintain
  else do
    rod_align env (rodIdOf self.shape) align_handle (rodIdOf ref.shape) ref.handle maintain sep
    pure (.collection [self.shape, ref.shape])

/-- `self._do_align(...)`: Python method dispatch on the handle's class. -/
def do_align (env : RemoteEnv) (self : AlignHandle) (align_handle : String)
    (ref : AlignHandle) (sep : Int × Int) (maintain : Bool) : M Figure :=
  match self.kind with
  | .plain => plain_do_align env self ref align_handle sep maintain
  | .rod => rod_do_align env self ref align_handle sep maintain

/-- `_AlignHandle.align(sep, maintain, **handle)`: asserts exactly one
keyword reference handle was supplied, asserts its anchor is set, resolves
the keyword name through the registry (`ValueError` when unknown), then
dispatches to `_do_align`.  The keyword dict is modelled as a key/value
list. -/
def align (env : RemoteEnv) (self : AlignHandle) (sep : Int × Int) (maintain : Bool)
    (handle : List (String × AlignHandle)) : M Figure :=
  match handle with
  | [kv] =>
    if kv.2.handle = "" then
      throwPy (.assertionError "Need a handle name for the reference object.")
    else
      match resolve kv.1 with
      | none => throwPy (.valueError ("There is no handle named " ++ kv.1 ++ "."))
      | some align_handle => do_align env self align_handle kv.2 sep maintain
  | _ => throwPy (.assertionError "Exactly 1 align handle expected.")

/-! ## Basic facts about the trace monad -/

theorem bind_apply {α β : Type} (m : M α) (f : α → M β) (n : Nat) :
    (m >>= f) n =
      match m n with
      | (t, n', .ok a) =>
        match f a n' with
        | (t', n'', r) => (t ++ t', n'', r)
      | (t, n', .error e) => (t, n', .error e) := rfl

theorem pure_apply {α : Type} (a : α) (n : Nat) : (pure a : M α) n = ([], n, .ok a) := rfl

theorem emit_apply (e : Event) (n : Nat) : emit e n = ([e], n, .ok ()) := rfl

theorem throwPy_apply {α : Type} (e : PyErr) (n : Nat) :
    (throwPy e : M α) n = ([], n, .error e) := rfl

theorem freshId_apply (n : Nat) : freshId n = ([], n + 1, .ok n) := rfl

theorem db_create_fig_group_apply (cv n : Nat) :
    db_create_fig_group cv n = ([.createFigGroup cv n], n + 1, .ok n) := rfl

theorem db_delete_object_apply (id n : Nat) :
    db_delete_object id n = ([.deleteObject id], n, .ok ()) := rfl

theorem group_b_box_apply (env : RemoteEnv) (gid n : Nat) :
    group_b_box env gid n =
      ([.readGroupBBox gid], n,
        match env.groupBox gid with
        | some b => .ok b
        | none => .error .remoteError) := by
  unfold group_b_box
  rw [bind_apply, emit_apply]
  cases env.groupBox gid <;> rfl

theorem add_figs_to_group_apply (gid : Nat) (ids : List Nat) (n : Nat) :
    add_figs_to_group gid ids n = (ids.map (Event.addFigToFigGroup gid), n, .ok ()) := by
  induction ids with
  | nil => rfl
  | cons fid fids ih =>
    unfold add_figs_to_group
    rw [bind_apply]
    show (match db_add_fig_to_fig_group gid fid n with
      | (t, n', .ok _) =>
        match add_figs_to_group gid fids n' with
        | (t', n'', r) => (t ++ t', n'', r)
      | (t, n', .error e) => (t, n', .error e)) = _
    rw [show db_add_fig_to_fig_group gid fid n = ([.addFigToFigGroup gid fid], n, .ok ()) from rfl]
    dsimp only
    rw [ih]
    rfl

/-! ## C6 — the handle registry -/

/-- C6 counterexample: the name `"center"` is accepted by the registry (it is
a key of `python_skill_handle`), but it resolves to the center-center anchor
`"centerCenter"`, which is not one of the eight canonical anchors listed by
the claim — so not every accepted name resolves to one of the eight. -/
theorem C6_counterexample :
    "center" ∈ python_skill_handle.map Prod.fst ∧
    resolve "center" = some "centerCenter" ∧
    "centerCenter" ∉ eightAnchors := by
  decide

/-- C6 amended: every symbolic anchor name accepted by the registry resolves
to exactly one of the NINE canonical anchors (the eight of the claim plus
the center-center anchor), and resolving `"center"` alone yields the same
canonical anchor as resolving `"center_center"`. -/
theorem C6_registry :
    (∀ p ∈ python_skill_handle, ∃ v, resolve p.1 = some v ∧ v ∈ nineAnchors) ∧
    resolve "center" = resolve "center_center" := by
  decide

/-- Witness for C6: the accepted name `"top_left"` resolves to a canonical
anchor. -/
theorem C6_registry_witness :
    ∃ v, resolve "top_left" = some v ∧ v ∈ nineAnchors :=
  C6_registry.1 ("top_left", "upperLeft") (by decide)

/-! ## C8 — the instance placement boundary -/

/-- C8: for every instance, the placement-boundary box is the master's
declared placement boundary with each corner translated by
(instance bounding-box min-corner − master bounding-box min-corner), and on
the fixture (master box ((0,0),(8,8)), master placement boundary
((-1,-3),(7,5)), instance box ((100,100),(108,108))) it equals
((99,97),(107,105)). -/
theorem C8_pr_boundary :
    (∀ (db rod cv n : Nat) (ibox mbox mpr : BBox),
      skill_pr_boundary (.inst db rod cv ibox mbox mpr) n =
        ([.readPrBoundary db], n,
          .ok (ptAdd mpr.1 (ptSub ibox.1 mbox.1), ptAdd mpr.2 (ptSub ibox.1 mbox.1)))) ∧
    skill_pr_boundary (.inst 1 10 7 ((100, 100), (108, 108)) ((0, 0), (8, 8))
        ((-1, -3), (7, 5))) 0 =
      ([.readPrBoundary 1], 0, .ok ((99, 97), (107, 105))) := by
  constructor
  · intro db rod cv n ibox mbox mpr
    show ([Event.readPrBoundary db] ++ [], n,
      Except.ok (ε := PyErr) (inst_pr_box ibox mbox mpr)) = _
    simp only [inst_pr_box, ptAdd, ptSub, List.append_nil, Prod.mk.injEq, Except.ok.injEq]
    refine ⟨trivial, trivial, ?_⟩
    omega
  · rfl

/-! ## C9 — contained object ids -/

theorem get_db_ids_list_eq (es : List Figure) :
    get_db_ids_list es = (es.map get_db_ids).flatten := by
  induction es with
  | nil => rfl
  | cons e es ih => simp [get_db_ids_list, ih]

/-- C9: `get_db_ids` yields the one-element sequence of the shape's own db id
for every single-object variant, and for a collection the concatenation of
its elements' sequences in element order; in particular the nested
collection [A, [B, C]] yields [A.id, B.id, C.id]. -/
theorem C9_get_db_ids :
    (∀ (db cv : Nat) (box : BBox), get_db_ids (.dbShape db cv box) = [db]) ∧
    (∀ (db rod cv : Nat) (box : BBox), get_db_ids (.rodShape db rod cv box) = [db]) ∧
    (∀ (db rod cv : Nat) (box mbox mpr : BBox),
      get_db_ids (.inst db rod cv box mbox mpr) = [db]) ∧
    (∀ es : List Figure, get_db_ids (.collection es) = (es.map get_db_ids).flatten) ∧
    (∀ (a b c : Figure),
      get_db_ids (.collection [a, .collection [b, c]]) =
        get_db_ids a ++ get_db_ids b ++ get_db_ids c) ∧
    (∀ (dbA dbB dbC cv : Nat) (box : BBox),
      get_db_ids (.collection [.dbShape dbA cv box,
        .collection [.dbShape dbB cv box, .dbShape dbC cv box]]) = [dbA, dbB, dbC]) := by
  refine ⟨fun _ _ _ => rfl, fun _ _ _ _ => rfl, fun _ _ _ _ _ _ => rfl, ?_, ?_, ?_⟩
  · intro es
    exact get_db_ids_list_eq es
  · intro a b c
    simp [get_db_ids, get_db_ids_list]
  · intro dbA dbB dbC cv box
    simp [get_db_ids, get_db_ids_list]

/-! ## C10 — anchor re-binding on a handle -/

/-- C10: re-binding an anchor on an alignment handle is pure: for every
handle and recognized anchor name it returns a new handle with the same
shape reference and placement-boundary flag and only the anchor replaced by
the resolved canonical anchor; the original (a frozen dataclass, embedded as
an immutable value) is untouched and no remote interaction occurs. -/
theorem C10_rebind (h : AlignHandle) (name a : String) (hres : resolve name = some a) :
    ∃ h', alignHandle_getattr h name = .ok h' ∧
      h'.shape = h.shape ∧ h'.pr = h.pr ∧ h'.handle = a := by
  refine ⟨⟨h.shape, h.pr, a, .plain⟩, ?_, rfl, rfl, rfl⟩
  simp [alignHandle_getattr, hres]

/-- Witness for C10: re-binding `"left"` on the bounding-box handle of a
concrete shape. -/
theorem C10_rebind_witness :
    ∃ h', alignHandle_getattr (fig_b_box_handle (.dbShape 3 7 ((0, 0), (1, 1)))) "left"
        = .ok h' ∧
      h'.shape = (fig_b_box_handle (.dbShape 3 7 ((0, 0), (1, 1)))).shape ∧
      h'.pr = (fig_b_box_handle (.dbShape 3 7 ((0, 0), (1, 1)))).pr ∧
      h'.handle = "centerLeft" :=
  C10_rebind (fig_b_box_handle (.dbShape 3 7 ((0, 0), (1, 1)))) "left" "centerLeft" (by decide)

/-! ## C7 — input validation of align -/

/-- C7: `align` raises (AssertionError, the source's rendering of the spec's
InvalidAlignmentRequest) with an empty trace — i.e. before any remote call —
when the number of keyword reference handles differs from one, and likewise
when the single reference handle's anchor is unset; when exactly one
reference handle with a set anchor is supplied, validation passes and the
call proceeds to the registry lookup and `_do_align`. -/
theorem C7_align_validation (env : RemoteEnv) (self : AlignHandle) (sep : Int × Int)
    (maintain : Bool) (kvs : List (String × AlignHandle)) (n : Nat) :
    (kvs.length ≠ 1 →
      align env self sep maintain kvs n =
        ([], n, .error (.assertionError "Exactly 1 align handle expected."))) ∧
    (∀ k ref, kvs = [(k, ref)] → ref.handle = "" →
      align env self sep maintain kvs n =
        ([], n, .error (.assertionError "Need a handle name for the reference object."))) ∧
    (∀ k ref, kvs = [(k, ref)] → ref.handle ≠ "" →
      align env self sep maintain kvs n =
        match resolve k with
        | none => ([], n, .error (.valueError ("There is no handle named " ++ k ++ ".")))
        | some ah => do_align env self ah ref sep maintain n) := by
  refine ⟨?_, ?_, ?_⟩
  · intro hlen
    match kvs with
    | [] => rfl
    | [kv] => exact absurd rfl hlen
    | kv₁ :: kv₂ :: rest => rfl
  · intro k ref hkvs href
    subst hkvs
    simp [align, href, throwPy]
  · intro k ref hkvs href
    subst hkvs
    simp only [align, href, if_neg href]
    cases resolve k <;> rfl

/-- Witness for C7: with zero reference handles `align` fails before any
remote call; with one unset reference anchor it fails likewise; with exactly
one set reference anchor it dispatches to `_do_align`. -/
theorem C7_align_validation_witness :
    (align ⟨fun _ => none, true⟩ (fig_b_box_handle (.dbShape 3 7 ((0, 0), (1, 1)))) (0, 0)
        false [] 0 =
      ([], 0, .error (.assertionError "Exactly 1 align handle expected."))) ∧
    (align ⟨fun _ => none, true⟩ (fig_b_box_handle (.dbShape 3 7 ((0, 0), (1, 1)))) (0, 0)
        false [("left", fig_b_box_handle (.dbShape 4 7 ((0, 0), (1, 1))))] 0 =
      ([], 0, .error (.assertionError "Need a handle name for the reference object."))) ∧
    (align ⟨fun _ => none, true⟩ (fig_b_box_handle (.dbShape 3 7 ((0, 0), (1, 1)))) (0, 0)
        false [("left", ⟨.dbShape 4 7 ((0, 0), (1, 1)), false, "centerRight", .plain⟩)] 0 =
      do_align ⟨fun _ => none, true⟩ (fig_b_box_handle (.dbShape 3 7 ((0, 0), (1, 1))))
        "centerLeft" ⟨.dbShape 4 7 ((0, 0), (1, 1)), false, "centerRight", .plain⟩ (0, 0)
        false 0) := by
  refine ⟨?_, ?_, ?_⟩
  · exact (C7_align_validation _ _ _ _ [] 0).1 (by decide)
  · exact (C7_align_validation _ _ _ _ _ 0).2.1 "left"
      (fig_b_box_handle (.dbShape 4 7 ((0, 0), (1, 1)))) rfl rfl
  · have h := (C7_align_validation ⟨fun _ => none, true⟩
      (fig_b_box_handle (.dbShape 3 7 ((0, 0), (1, 1)))) (0, 0) false
      [("left", ⟨.dbShape 4 7 ((0, 0), (1, 1)), false, "centerRight", .plain⟩)] 0).2.2
      "left" ⟨.dbShape 4 7 ((0, 0), (1, 1)), false, "centerRight", .plain⟩ rfl (by decide)
    simp only [show resolve "left" = some "centerLeft" from by decide] at h
    exact h

/-! ## C5 — the empty collection -/

/-- C5 counterexample: on a collection with zero elements, `skill_b_box`
raises IndexError (from the collection's `cell_view` indexing the empty
list) with an empty trace: the create-group / insert / read-box /
delete-group sequence is never started and no box is returned, so the claim
that the algorithm completes on the empty collection fails. -/
theorem C5_counterexample :
    skill_b_box ⟨fun _ => some ((0, 0), (1, 1)), true⟩ (.collection []) 0 =
      ([], 0, .error .indexError) := rfl

/-- C5 amended: for a FigureCollection with zero elements, `skill_b_box`
raises IndexError while computing the collection's cell view, before any
remote interaction, instead of completing the create / insert / read /
delete sequence. -/
theorem C5_empty_collection (env : RemoteEnv) (n : Nat) :
    skill_b_box env (.collection []) n = ([], n, .error .indexError) := rfl

/-! ## C1 — cleanup of the temporary group in the collection bounding box -/

/-- C1 counterexample: on a one-element collection whose remote box-read
raises, `skill_b_box` propagates the failure with the temporary figure group
(id 0) still undeleted — the trace records its creation but no
`deleteObject`, refuting the claim that the group is deleted even when the
box-read raises. -/
theorem C1_counterexample :
    skill_b_box ⟨fun _ => none, true⟩ (.collection [.dbShape 5 7 ((0, 0), (2, 3))]) 0 =
      ([.readCellView 5, .createFigGroup 7 0, .addFigToFigGroup 0 5, .readGroupBBox 0],
        1, .error .remoteError) ∧
    Event.deleteObject 0 ∉
      (skill_b_box ⟨fun _ => none, true⟩ (.collection [.dbShape 5 7 ((0, 0), (2, 3))]) 0).1 := by
  constructor
  · rfl
  · decide

/-- C1 amended: in `FigureCollection.skill_b_box` the temporary group is
deleted exactly on the success path: when the remote box-read succeeds the
group is deleted after the read and the box is returned, but when the read
raises the failure propagates and the temporary group is never deleted
(there is no scoped acquisition around the read). -/
theorem C1_collection_b_box (env : RemoteEnv) (es : List Figure) (n n₁ cv : Nat)
    (t₁ : List Event) (hcv : fig_cell_view (.collection es) n = (t₁, n₁, .ok cv)) :
    (∀ b, env.groupBox n₁ = some b →
      skill_b_box env (.collection es) n =
        (t₁ ++ Event.createFigGroup cv n₁ ::
          ((get_db_ids (.collection es)).map (Event.addFigToFigGroup n₁) ++
            [Event.readGroupBBox n₁, Event.deleteObject n₁]), n₁ + 1, .ok b)) ∧
    (env.groupBox n₁ = none →
      skill_b_box env (.collection es) n =
        (t₁ ++ Event.createFigGroup cv n₁ ::
          ((get_db_ids (.collection es)).map (Event.addFigToFigGroup n₁) ++
            [Event.readGroupBBox n₁]), n₁ + 1, .error .remoteError)) := by
  constructor
  · intro b hbox
    simp only [skill_b_box, bind_apply, hcv, db_create_fig_group_apply,
      add_figs_to_group_apply, group_b_box_apply, db_delete_object_apply, pure_apply, hbox]
    simp [List.append_assoc]
  · intro hbox
    simp only [skill_b_box, bind_apply, hcv, db_create_fig_group_apply,
      add_figs_to_group_apply, group_b_box_apply, db_delete_object_apply, pure_apply, hbox]
    simp [List.append_assoc]

/-- Witness for C1: on a one-element collection with a succeeding box-read
the sequence create / insert / read / delete runs and the box is returned. -/
theorem C1_collection_b_box_witness :
    skill_b_box ⟨fun _ => some ((0, 0), (2, 3)), true⟩
        (.collection [.dbShape 5 7 ((0, 0), (2, 3))]) 0 =
      ([.readCellView 5, .createFigGroup 7 0, .addFigToFigGroup 0 5, .readGroupBBox 0,
        .deleteObject 0], 1, .ok ((0, 0), (2, 3))) := by
  have h := (C1_collection_b_box ⟨fun _ => some ((0, 0), (2, 3)), true⟩
    [.dbShape 5 7 ((0, 0), (2, 3))] 0 0 7 [.readCellView 5] rfl).1 ((0, 0), (2, 3)) rfl
  simpa using h

/-! ## C2 — cleanup of the ghost-shape scope -/

/-- C2: whenever the ghost-shape scope has materialized its temporaries
(acquisition reached the yield with marker id `rid` and temporary group id
`gid`), the scope's trace is the body's trace followed by exactly
`deleteObject gid` and then `deleteObject rid` — the temporary group is
deleted first and the marker rectangle second, in that order, whether the
body completed normally or raised, and the body's outcome (value or
exception) is propagated unchanged. -/
theorem C2_ghost_cleanup {α : Type} (env : RemoteEnv) (cv : Nat) (figure : Figure) (pr : Bool)
    (body : Nat → M α) (n n₁ rid gid : Nat) (t₁ : List Event)
    (hacq : ghost_acquire env cv figure pr n = (t₁, n₁, .ok (rid, gid))) :
    (∀ a t₂ n₂, body rid n₁ = (t₂, n₂, .ok a) →
      ghost_shape env cv figure pr body n =
        (t₁ ++ (t₂ ++ [Event.deleteObject gid, Event.deleteObject rid]), n₂, .ok a)) ∧
    (∀ e t₂ n₂, body rid n₁ = (t₂, n₂, .error e) →
      ghost_shape env cv figure pr body n =
        (t₁ ++ (t₂ ++ [Event.deleteObject gid, Event.deleteObject rid]), n₂, .error e)) := by
  constructor
  · intro a t₂ n₂ hbody
    simp only [ghost_shape, bind_apply, hacq, tryFinally, hbody, db_delete_object_apply,
      pure_apply]
    rfl
  · intro e t₂ n₂ hbody
    simp only [ghost_shape, bind_apply, hacq, tryFinally, hbody, db_delete_object_apply,
      pure_apply]
    rfl

/-- Witness for C2: a ghost scope over a rod shape whose body raises still
deletes the temporary group (id 1) first and the marker rectangle (id 0)
second, and propagates the failure. -/
theorem C2_ghost_cleanup_witness :
    ghost_shape ⟨fun _ => some ((0, 0), (1, 1)), true⟩ 7 (.rodShape 5 50 7 ((0, 0), (2, 3)))
        false (fun _ => (throwPy .remoteError : M Unit)) 0 =
      ([.readShapeBBox 5, .createRect 7 0 ((0, 0), (2, 3)), .createFigGroup 7 1,
        .addFigToFigGroup 1 0, .addFigToFigGroup 1 5] ++
        ([] ++ [.deleteObject 1, .deleteObject 0]), 2, .error .remoteError) :=
  (C2_ghost_cleanup ⟨fun _ => some ((0, 0), (1, 1)), true⟩ 7 (.rodShape 5 50 7 ((0, 0), (2, 3)))
    false (fun _ => (throwPy .remoteError : M Unit)) 0 2 0 1
    [.readShapeBBox 5, .createRect 7 0 ((0, 0), (2, 3)), .createFigGroup 7 1,
      .addFigToFigGroup 1 0, .addFigToFigGroup 1 5] rfl).2 .remoteError [] 2 rfl

/-! ## C4 — rejection of maintain outside the native fast path -/

theorem constructed_rod_inv (h : AlignHandle) (hc : Constructed h) :
    h.kind = .rod → isRodFigure h.shape = true ∧ h.pr = false := by
  induction hc with
  | getattr f name h' heq =>
    intro hk
    unfold fig_getattr at heq
    cases hres : resolve name with
    | none => rw [hres] at heq; exact absurd heq (by simp)
    | some a =>
      rw [hres] at heq
      cases heq
      cases hrod : isRodFigure f with
      | false => rw [hrod] at hk; exact absurd hk (by simp)
      | true => exact ⟨rfl, rfl⟩
  | bbox f =>
    intro hk
    unfold fig_b_box_handle at hk
    cases hrod : isRodFigure f with
    | false => rw [hrod] at hk; exact absurd hk (by simp)
    | true => exact ⟨by simp [fig_b_box_handle, hrod], rfl⟩
  | prBoundary db rod cv box mb mp =>
    intro hk
    exact absurd hk (by simp [inst_pr_boundary_handle])
  | rebind h₀ name h' hc₀ heq ih =>
    intro hk
    unfold alignHandle_getattr at heq
    cases hres : resolve name with
    | none => rw [hres] at heq; exact absurd heq (by simp)
    | some a =>
      rw [hres] at heq
      cases heq
      exact absurd hk (by simp)

/-- C4 counterexample: the claim's "maintain=true is accepted between two
natively alignment-capable single shapes aligned on their drawn bounding
boxes" half fails: re-binding an anchor on a rod shape's bounding-box handle
goes through `_AlignHandle.__getattr__`, which constructs the plain base
class, and `_AlignHandle._do_align` rejects `maintain` unconditionally — so
aligning two RodShapes on their drawn boxes through such a handle raises
ValueError instead of accepting `maintain=true` and passing it to the
native primitive. -/
theorem C4_counterexample :
    alignHandle_getattr (fig_b_box_handle (.rodShape 3 30 9 ((0, 0), (4, 5)))) "upper_left" =
      .ok ⟨.rodShape 3 30 9 ((0, 0), (4, 5)), false, "upperLeft", .plain⟩ ∧
    do_align ⟨fun _ => some ((0, 0), (1, 1)), true⟩
        ⟨.rodShape 3 30 9 ((0, 0), (4, 5)), false, "upperLeft", .plain⟩ "upperLeft"
        ⟨.rodShape 4 40 9 ((0, 0), (4, 5)), false, "lowerRight", .rod⟩ (0, 0) true 0 =
      ([], 0, .error (.valueError
        "Cannot maintain alignment when figure has no rod representation.")) :=
  ⟨rfl, rfl⟩

/-- C4 amended: for every handle reachable through the source's construction
paths, requesting `maintain=true` fails with a ValueError (the source's
rendering of the spec's IncompatibleAlignment) and an empty trace — before
any remote call — whenever either side is not a rod-capable single shape or
uses the placement-boundary flag, and also whenever the aligned-side handle
is the plain handle class (as after anchor re-binding through the generic
accessor), even between two RodShapes on drawn bounding boxes;
`maintain=true` is accepted and passed to the native primitive exactly in
the remaining configuration: the aligned-side handle is the rod-capable
class — obtained directly from a RodShape — and the reference shape is a
RodShape with no placement-boundary flag on either side. -/
theorem C4_maintain (env : RemoteEnv) (self ref : AlignHandle) (ah : String)
    (sep : Int × Int) (n : Nat) (hc : Constructed self) :
    ((isRodFigure self.shape = false ∨ isRodFigure ref.shape = false ∨
        self.pr = true ∨ ref.pr = true) →
      ∃ msg, do_align env self ah ref sep true n = ([], n, .error (.valueError msg))) ∧
    (self.kind = .plain →
      do_align env self ah ref sep true n =
        ([], n, .error (.valueError
          "Cannot maintain alignment when figure has no rod representation."))) ∧
    (self.kind = .rod → isRodFigure ref.shape = true → ref.pr = false →
      env.alignOk = true →
      do_align env self ah ref sep true n =
        ([.rodAlign (rodIdOf self.shape) ah (rodIdOf ref.shape) ref.handle true sep.1 sep.2],
          n, .ok (.collection [self.shape, ref.shape]))) := by
  refine ⟨?_, ?_, ?_⟩
  · intro hcond
    cases hkind : self.kind with
    | plain =>
      exact ⟨"Cannot maintain alignment when figure has no rod representation.",
        by simp [do_align, hkind, plain_do_align, throwPy]⟩
    | rod =>
      obtain ⟨hrodself, hprself⟩ := constructed_rod_inv self hc hkind
      rcases hcond with h | h | h | h
      · rw [hrodself] at h; exact absurd h (by simp)
      · exact ⟨"Cannot maintain alignment when ref objects has no rod representation.",
          by simp [do_align, hkind, rod_do_align, h, throwPy]⟩
      · rw [hprself] at h; exact absurd h (by simp)
      · cases href : isRodFigure ref.shape with
        | false =>
          exact ⟨"Cannot maintain alignment when ref objects has no rod representation.",
            by simp [do_align, hkind, rod_do_align, href, throwPy]⟩
        | true =>
          exact ⟨"Cannot maintain alignment for pr boundary.",
            by simp [do_align, hkind, rod_do_align, href, h, hprself, throwPy]⟩
  · intro hkind
    simp [do_align, hkind, plain_do_align, throwPy]
  · intro hkind href hrefpr halign
    obtain ⟨hrodself, hprself⟩ := constructed_rod_inv self hc hkind
    simp [do_align, hkind, rod_do_align, href, hrefpr, hrodself, hprself, bind_apply,
      rod_align, emit_apply, pure_apply, halign]

/-- Witness for C4: with an instance aligned on its placement boundary as
the reference, `maintain=true` fails before any remote call; through a
constructed anchor-re-bound (plain-class) handle over a RodShape it fails
likewise; and with two rod shapes on their rod-capable bounding-box handles
it is accepted and passed through. -/
theorem C4_maintain_witness :
    (∃ msg, do_align ⟨fun _ => none, true⟩
        (fig_b_box_handle (.rodShape 1 10 7 ((0, 0), (2, 3)))) "centerLeft"
        (inst_pr_boundary_handle (.inst 2 20 7 ((0, 0), (2, 3)) ((0, 0), (2, 3))
          ((0, 0), (1, 1)))) (0, 0) true 0 =
        ([], 0, .error (.valueError msg))) ∧
    do_align ⟨fun _ => none, true⟩
        ⟨.rodShape 3 30 9 ((0, 0), (4, 5)), false, "upperLeft", .plain⟩ "upperLeft"
        ⟨.rodShape 4 40 9 ((0, 0), (4, 5)), false, "lowerRight", .rod⟩ (0, 0) true 0 =
      ([], 0, .error (.valueError
        "Cannot maintain alignment when figure has no rod representation.")) ∧
    do_align ⟨fun _ => none, true⟩ (fig_b_box_handle (.rodShape 1 10 7 ((0, 0), (2, 3))))
        "centerLeft" ⟨.rodShape 2 20 7 ((0, 0), (2, 3)), false, "centerRight", .rod⟩
        (0, 0) true 0 =
      ([.rodAlign 10 "centerLeft" 20 "centerRight" true 0 0], 0,
        .ok (.collection [.rodShape 1 10 7 ((0, 0), (2, 3)),
          .rodShape 2 20 7 ((0, 0), (2, 3))])) := by
  refine ⟨?_, ?_, ?_⟩
  · exact (C4_maintain ⟨fun _ => none, true⟩
      (fig_b_box_handle (.rodShape 1 10 7 ((0, 0), (2, 3))))
      (inst_pr_boundary_handle (.inst 2 20 7 ((0, 0), (2, 3)) ((0, 0), (2, 3))
        ((0, 0), (1, 1)))) "centerLeft" (0, 0) 0
      (.bbox (.rodShape 1 10 7 ((0, 0), (2, 3))))).1 (by right; right; right; rfl)
  · exact (C4_maintain ⟨fun _ => none, true⟩
      ⟨.rodShape 3 30 9 ((0, 0), (4, 5)), false, "upperLeft", .plain⟩
      ⟨.rodShape 4 40 9 ((0, 0), (4, 5)), false, "lowerRight", .rod⟩ "upperLeft" (0, 0) 0
      (.rebind (fig_b_box_handle (.rodShape 3 30 9 ((0, 0), (4, 5)))) "upper_left"
        ⟨.rodShape 3 30 9 ((0, 0), (4, 5)), false, "upperLeft", .plain⟩
        (.bbox (.rodShape 3 30 9 ((0, 0), (4, 5)))) rfl)).2.1 rfl
  · exact (C4_maintain ⟨fun _ => none, true⟩
      (fig_b_box_handle (.rodShape 1 10 7 ((0, 0), (2, 3))))
      ⟨.rodShape 2 20 7 ((0, 0), (2, 3)), false, "centerRight", .rod⟩ "centerLeft" (0, 0) 0
      (.bbox (.rodShape 1 10 7 ((0, 0), (2, 3))))).2.2 rfl rfl rfl rfl

/-! ## C3 — trace lemmas for the fast-path/fallback decision -/

theorem bind_all {α β : Type} (P : Event → Bool) (m : M α) (f : α → M β) (n : Nat)
    (hm : ((m n).1.all P) = true) (hf : ∀ (a : α) (n' : Nat), (((f a n').1.all P) = true)) :
    (((m >>= f) n).1.all P) = true := by
  rw [bind_apply]
  rcases hmn : m n with ⟨t, n', r⟩
  rw [hmn] at hm
  rcases r with e | a
  · exact hm
  · rcases hfn : f a n' with ⟨t', n'', r'⟩
    have h2 := hf a n'
    rw [hfn] at h2
    simp [hfn, List.all_append, hm, h2]

theorem tryFinally_all {α : Type} (P : Event → Bool) (body : M α) (fin : M Unit) (n : Nat)
    (hb : ((body n).1.all P) = true) (hf : ∀ n', ((fin n').1.all P) = true) :
    ((tryFinally body fin n).1.all P) = true := by
  unfold tryFinally
  rcases hbn : body n with ⟨t, n', r⟩
  rw [hbn] at hb
  have h2 := hf n'
  rcases hfn : fin n' with ⟨t', n'', r'⟩
  rw [hfn] at h2
  rcases r with e | a <;> rcases r' with e' | u <;> simp [hfn, List.all_append, hb, h2]

mutual

theorem fig_cell_view_reads : ∀ (f : Figure) (n : Nat),
    ((fig_cell_view f n).1.all cellViewReadEvent) = true
  | .dbShape _ _ _, _ => rfl
  | .rodShape _ _ _ _, _ => rfl
  | .inst _ _ _ _ _ _, _ => rfl
  | .collection es, n => by
    simp only [fig_cell_view]
    apply bind_all
    · exact fig_cell_view_list_reads es n
    · intro cvs n'
      match cvs with
      | [] => rfl
      | c0 :: rest =>
        dsimp only
        split
        · rfl
        · rfl

theorem fig_cell_view_list_reads : ∀ (es : List Figure) (n : Nat),
    ((fig_cell_view_list es n).1.all cellViewReadEvent) = true
  | [], _ => rfl
  | e :: es, n => by
    simp only [fig_cell_view_list]
    apply bind_all
    · exact fig_cell_view_reads e n
    · intro c n'
      apply bind_all
      · exact fig_cell_view_list_reads es n'
      · intro cs n''
        rfl

end

theorem all_weaken (P Q : Event → Bool) (hPQ : ∀ e, P e = true → Q e = true)
    (t : List Event) (h : t.all P = true) : t.all Q = true := by
  induction t with
  | nil => rfl
  | cons e t ih =>
    simp only [List.all_cons, Bool.and_eq_true] at h ⊢
    exact ⟨hPQ e h.1, ih h.2⟩

theorem fig_cell_view_maintain_false (f : Figure) (n : Nat) :
    ((fig_cell_view f n).1.all maintainFalseEvent) = true := by
  apply all_weaken cellViewReadEvent
  · intro e he
    cases e <;> simp_all [cellViewReadEvent, maintainFalseEvent]
  · exact fig_cell_view_reads f n

theorem skill_b_box_maintain_false (env : RemoteEnv) (f : Figure) (n : Nat) :
    ((skill_b_box env f n).1.all maintainFalseEvent) = true := by
  match f with
  | .dbShape _ _ _ => rfl
  | .rodShape _ _ _ _ => rfl
  | .inst _ _ _ _ _ _ => rfl
  | .collection es =>
    simp only [skill_b_box]
    apply bind_all
    · exact fig_cell_view_maintain_false (.collection es) n
    · intro cv n'
      apply bind_all
      · simp [db_create_fig_group_apply, maintainFalseEvent]
      · intro gid n''
        apply bind_all
        · simp only [add_figs_to_group_apply, List.all_map]
          simp [maintainFalseEvent, Function.comp]
        · intro u n₃
          apply bind_all
          · simp [group_b_box_apply, maintainFalseEvent]
          · intro b n₄
            apply bind_all
            · simp [db_delete_object_apply, maintainFalseEvent]
            · intro u' n₅
              rfl

theorem skill_pr_boundary_maintain_false (f : Figure) (n : Nat) :
    ((skill_pr_boundary f n).1.all maintainFalseEvent) = true := by
  match f with
  | .dbShape _ _ _ => rfl
  | .rodShape _ _ _ _ => rfl
  | .inst _ _ _ _ _ _ => rfl
  | .collection _ => rfl

theorem ghost_acquire_maintain_false (env : RemoteEnv) (cv : Nat) (figure : Figure)
    (pr : Bool) (n : Nat) :
    ((ghost_acquire env cv figure pr n).1.all maintainFalseEvent) = true := by
  unfold ghost_acquire
  cases pr with
  | true =>
    rw [if_pos rfl]
    apply bind_all
    · exact skill_pr_boundary_maintain_false figure n
    · intro box n'
      apply bind_all
      · simp [rod_create_rect, bind_apply, freshId_apply, emit_apply, pure_apply,
          maintainFalseEvent]
      · intro rid n''
        apply bind_all
        · simp [db_create_fig_group_apply, maintainFalseEvent]
        · intro gid n₃
          apply bind_all
          · simp [db_add_fig_to_fig_group, emit_apply, maintainFalseEvent]
          · intro u n₄
            apply bind_all
            · simp only [add_figs_to_group_apply, List.all_map]
              simp [maintainFalseEvent, Function.comp]
            · intro u' n₅
              rfl
  | false =>
    rw [if_neg (by simp)]
    apply bind_all
    · exact skill_b_box_maintain_false env figure n
    · intro box n'
      apply bind_all
      · simp [rod_create_rect, bind_apply, freshId_apply, emit_apply, pure_apply,
          maintainFalseEvent]
      · intro rid n''
        apply bind_all
        · simp [db_create_fig_group_apply, maintainFalseEvent]
        · intro gid n₃
          apply bind_all
          · simp [db_add_fig_to_fig_group, emit_apply, maintainFalseEvent]
          · intro u n₄
            apply bind_all
            · simp only [add_figs_to_group_apply, List.all_map]
              simp [maintainFalseEvent, Function.comp]
            · intro u' n₅
              rfl

theorem ghost_shape_maintain_false {α : Type} (env : RemoteEnv) (cv : Nat) (figure : Figure)
    (pr : Bool) (body : Nat → M α) (n : Nat)
    (hbody : ∀ (rid n' : Nat), ((body rid n').1.all maintainFalseEvent) = true) :
    ((ghost_shape env cv figure pr body n).1.all maintainFalseEvent) = true := by
  unfold ghost_shape
  apply bind_all
  · exact ghost_acquire_maintain_false env cv figure pr n
  · intro ids n'
    apply tryFinally_all
    · exact hbody ids.1 n'
    · intro n''
      simp [db_delete_object, bind_apply, emit_apply, maintainFalseEvent]

theorem rod_align_false_maintain_false (env : RemoteEnv) (a : Nat) (ah : String) (b : Nat)
    (rh : String) (sep : Int × Int) (n : Nat) :
    ((rod_align env a ah b rh false sep n).1.all maintainFalseEvent) = true := by
  unfold rod_align
  apply bind_all
  · rfl
  · intro u n'
    cases env.alignOk <;> rfl

theorem plain_do_align_maintain_false (env : RemoteEnv) (self ref : AlignHandle)
    (ah : String) (sep : Int × Int) (n : Nat) :
    ((plain_do_align env self ref ah sep false n).1.all maintainFalseEvent) = true := by
  simp only [plain_do_align, Bool.false_eq_true, if_false]
  apply bind_all
  · exact fig_cell_view_maintain_false self.shape n
  · intro cv n'
    apply bind_all
    · apply ghost_shape_maintain_false
      intro rid n''
      apply ghost_shape_maintain_false
      intro rid' n₃
      exact rod_align_false_maintain_false env rid ah rid' ref.handle sep n₃
    · intro f n''
      rfl

/-- C3 counterexample: the claim's "in every other configuration the
fallback is taken" direction holds, but "fast path exactly when both shapes
are RodShape and no placement-boundary flag" fails: re-binding an anchor on
a rod shape's bounding-box handle goes through `_AlignHandle.__getattr__`,
which constructs the base class, so aligning two RodShapes with no
placement-boundary flags through such a handle takes the ghost fallback:
the native primitive is not invoked on the real rod handles (10 and 20) and
temporary objects are fabricated (a figure group is created). -/
theorem C3_counterexample :
    alignHandle_getattr (fig_b_box_handle (.rodShape 1 10 7 ((0, 0), (2, 3)))) "left" =
      .ok ⟨.rodShape 1 10 7 ((0, 0), (2, 3)), false, "centerLeft", .plain⟩ ∧
    (do_align ⟨fun _ => some ((0, 0), (1, 1)), true⟩
        ⟨.rodShape 1 10 7 ((0, 0), (2, 3)), false, "centerLeft", .plain⟩ "centerLeft"
        ⟨.rodShape 2 20 7 ((0, 0), (2, 3)), false, "centerRight", .plain⟩ (0, 0) false 0).1 ≠
      [.rodAlign 10 "centerLeft" 20 "centerRight" false 0 0] ∧
    Event.createFigGroup 7 1 ∈
      (do_align ⟨fun _ => some ((0, 0), (1, 1)), true⟩
        ⟨.rodShape 1 10 7 ((0, 0), (2, 3)), false, "centerLeft", .plain⟩ "centerLeft"
        ⟨.rodShape 2 20 7 ((0, 0), (2, 3)), false, "centerRight", .plain⟩ (0, 0) false 0).1 := by
  refine ⟨rfl, by decide, by decide⟩

/-- C3 amended: the native fast path is taken exactly when the aligned-side
handle is the rod-capable handle class — obtained directly from a RodShape
by anchor access or `b_box`, not re-bound through the generic anchor
accessor — and the reference shape is a RodShape with no placement-boundary
flag on either side: then the native primitive is invoked once directly on
the two real rod handles with the caller's separation and maintain flag and
no other remote interaction happens; in every other configuration (with
`maintain=false`, the only value the checks let through there) the call
reduces to the ghost fallback `_AlignHandle._do_align`, which opens one
ghost scope per side, and every native-primitive invocation in the
fallback's trace passes `maintain=false`, never the caller's value. -/
theorem C3_fast_path (env : RemoteEnv) (self ref : AlignHandle) (ah : String)
    (sep : Int × Int) (maintain : Bool) (n : Nat) :
    (Constructed self → self.kind = .rod → isRodFigure ref.shape = true → ref.pr = false →
      env.alignOk = true →
      do_align env self ah ref sep maintain n =
        ([.rodAlign (rodIdOf self.shape) ah (rodIdOf ref.shape) ref.handle maintain
            sep.1 sep.2], n, .ok (.collection [self.shape, ref.shape]))) ∧
    ((self.kind = .plain ∨ isRodFigure ref.shape = false ∨ ref.pr = true) →
      maintain = false →
      do_align env self ah ref sep maintain n = plain_do_align env self ref ah sep false n) ∧
    ((plain_do_align env self ref ah sep false n).1.all maintainFalseEvent) = true := by
  refine ⟨?_, ?_, plain_do_align_maintain_false env self ref ah sep n⟩
  · intro hc hkind href hrefpr halign
    obtain ⟨hrodself, hprself⟩ := constructed_rod_inv self hc hkind
    cases maintain <;>
      simp [do_align, hkind, rod_do_align, href, hrefpr, hrodself, hprself, bind_apply,
        rod_align, emit_apply, pure_apply, halign]
  · intro hcond hm
    subst hm
    rcases hcond with h | h | h
    · simp [do_align, h]
    · cases hkind : self.kind with
      | plain => simp [do_align, hkind]
      | rod => simp [do_align, hkind, rod_do_align, h]
    · cases hkind : self.kind with
      | plain => simp [do_align, hkind]
      | rod => cases href : isRodFigure ref.shape <;>
          simp [do_align, hkind, rod_do_align, h, href]

/-- Witness for C3: the fast path on two rod shapes through the rod-capable
bounding-box handle with `maintain=true`; the fallback dispatch for a plain
DbShape aligned side; and the maintain=false-only fallback trace at those
arguments. -/
theorem C3_fast_path_witness :
    (do_align ⟨fun _ => some ((0, 0), (1, 1)), true⟩
        (fig_b_box_handle (.rodShape 1 10 7 ((0, 0), (2, 3)))) "upperLeft"
        ⟨.rodShape 2 20 7 ((0, 0), (2, 3)), false, "lowerRight", .rod⟩ (1, 2) true 0 =
      ([.rodAlign 10 "upperLeft" 20 "lowerRight" true 1 2], 0,
        .ok (.collection [.rodShape 1 10 7 ((0, 0), (2, 3)),
          .rodShape 2 20 7 ((0, 0), (2, 3))]))) ∧
    (do_align ⟨fun _ => some ((0, 0), (1, 1)), true⟩
        (fig_b_box_handle (.dbShape 1 7 ((0, 0), (2, 3)))) "upperLeft"
        ⟨.rodShape 2 20 7 ((0, 0), (2, 3)), false, "lowerRight", .rod⟩ (1, 2) false 0 =
      plain_do_align ⟨fun _ => some ((0, 0), (1, 1)), true⟩
        (fig_b_box_handle (.dbShape 1 7 ((0, 0), (2, 3))))
        ⟨.rodShape 2 20 7 ((0, 0), (2, 3)), false, "lowerRight", .rod⟩ "upperLeft"
        (1, 2) false 0) ∧
    ((plain_do_align ⟨fun _ => some ((0, 0), (1, 1)), true⟩
        (fig_b_box_handle (.dbShape 1 7 ((0, 0), (2, 3))))
        ⟨.rodShape 2 20 7 ((0, 0), (2, 3)), false, "lowerRight", .rod⟩ "upperLeft"
        (1, 2) false 0).1.all maintainFalseEvent) = true := by
  refine ⟨?_, ?_, ?_⟩
  · exact (C3_fast_path ⟨fun _ => some ((0, 0), (1, 1)), true⟩
      (fig_b_box_handle (.rodShape 1 10 7 ((0, 0), (2, 3))))
      ⟨.rodShape 2 20 7 ((0, 0), (2, 3)), false, "lowerRight", .rod⟩ "upperLeft" (1, 2)
      true 0).1 (.bbox (.rodShape 1 10 7 ((0, 0), (2, 3)))) rfl rfl rfl rfl
  · exact (C3_fast_path ⟨fun _ => some ((0, 0), (1, 1)), true⟩
      (fig_b_box_handle (.dbShape 1 7 ((0, 0), (2, 3))))
      ⟨.rodShape 2 20 7 ((0, 0), (2, 3)), false, "lowerRight", .rod⟩ "upperLeft" (1, 2)
      false 0).2.1 (Or.inl rfl) rfl
  · exact (C3_fast_path ⟨fun _ => some ((0, 0), (1, 1)), true⟩
      (fig_b_box_handle (.dbShape 1 7 ((0, 0), (2, 3))))
      ⟨.rodShape 2 20 7 ((0, 0), (2, 3)), false, "lowerRight", .rod⟩ "upperLeft" (1, 2)
      false 0).2.2

end Rodlayout
